import Mathlib

/-!
Shallow embedding of `src/client/run.py` from the eligibility-mcp-llamastack
repository: a document-ingestion script that reads configuration from
environment variables, builds a LlamaStack client, resolves an embedding
model, registers a vector database and inserts documents loaded from a
local folder.

Effectful Python code is modelled in the `EvM` monad: a computation yields
the ordered list of observable events (prints, outbound API calls, sleeps,
filesystem checks) together with either a normal result or a raised Python
exception.  Remote calls are recorded as events; the data they return
(the model listing) is a parameter of the embedding.  The filesystem is a
parameter mapping folder paths to folder contents.
-/

namespace Run

/-- Python values, as far as this script inspects them (metadata entries).
Floats are carried by their textual representation: the script never does
float arithmetic, it only type-checks and prints them. -/
inductive PyVal where
  | vNone
  | vBool (b : Bool)
  | vInt (n : Int)
  | vFloat (repr : String)
  | vStr (s : String)
  | vList (xs : List PyVal)
  | vDict (xs : List (String × PyVal))
deriving Repr

/-- Python `str()` of a value, as used in f-string interpolation. -/
def pyStr : PyVal → String
  | PyVal.vNone => "None"
  | PyVal.vBool b => if b then "True" else "False"
  | PyVal.vInt n => toString n
  | PyVal.vFloat r => r
  | PyVal.vStr s => s
  | PyVal.vList _ => "[...]"
  | PyVal.vDict _ => "{...}"

instance : ToString PyVal := ⟨pyStr⟩

/-- Python `isinstance(v, dict)`. -/
def PyVal.isDict : PyVal → Bool
  | PyVal.vDict _ => true
  | _ => false

/-- Python `isinstance(v, (str, int, float))`.  A Python `bool` is a subclass of
`int`, so booleans pass this check. -/
def isStrIntFloat : PyVal → Bool
  | PyVal.vStr _ => true
  | PyVal.vInt _ => true
  | PyVal.vFloat _ => true
  | PyVal.vBool _ => true
  | _ => false

/-- Python `d.get(k)`: `None` when `d` is not a dict or the key is absent. -/
def mGet (v : PyVal) (k : String) : PyVal :=
  match v with
  | PyVal.vDict xs => ((xs.lookup k).getD PyVal.vNone)
  | _ => PyVal.vNone

/-- Python exceptions raised or re-raised by this script, carried with the
message that `str(e)` produces. -/
inductive PyExc where
  | valueError (msg : String)
  | keyError (msg : String)
  | typeError (msg : String)
deriving Repr, DecidableEq

/-- Python `str(e)` on an exception. -/
def excMsg : PyExc → String
  | PyExc.valueError m => m
  | PyExc.keyError m => m
  | PyExc.typeError m => m

/-- Python `d[k]` subscript: raises `TypeError` on a non-dict and `KeyError` on a
missing key (used at line 242 of `run.py`). -/
def pySub (v : PyVal) (k : String) : Except PyExc PyVal :=
  match v with
  | PyVal.vDict xs =>
      match xs.lookup k with
      | some x => Except.ok x
      | none => Except.error (PyExc.keyError k)
  | _ => Except.error (PyExc.typeError "object is not subscriptable")

/-- A `llama_stack_client` `Model` descriptor, with the fields the script
reads.  `metadata` is kept as a raw Python value because the script checks
defensively whether it is a dictionary at all. -/
structure Model where
  identifier : String
  provider_id : String
  api_model_type : String
  metadata : PyVal
deriving Repr

/-- The LlamaStack client object: the script only ever gives it a base URL. -/
structure Client where
  base_url : String
deriving Repr, DecidableEq

/-- A RAG document payload as built by `load_documents_from_folder`. -/
structure RAGDocument where
  document_id : String
  content : String
  mime_type : String
  metadata : List (String × PyVal)
deriving Repr

/-- Observable events of a run, in program order. -/
inductive Event where
  | print (s : String)
  | createClient (base_url : String)
  | listModels
  | registerDb (vector_db_id : String) (embedding_model : String) (provider_id : String)
  | insertCall (documents : List RAGDocument) (vector_db_id : String)
      (chunk_size_in_tokens : Int)
  | sleepFor (seconds : Int)
  | fsCheck (folder_path : String)
deriving Repr

/-- Effectful computation: emitted events plus a result or raised exception. -/
abbrev EvM (α : Type) : Type := List Event × Except PyExc α

def EvM.bind {α β : Type} (x : EvM α) (f : α → EvM β) : EvM β :=
  match x with
  | (t, Except.error e) => (t, Except.error e)
  | (t, Except.ok a) => (t ++ (f a).1, (f a).2)

instance : Monad EvM where
  pure a := ([], Except.ok a)
  bind := EvM.bind

def emit (e : Event) : EvM Unit := ([e], Except.ok ())

def pyPrint (s : String) : EvM Unit := emit (Event.print s)

def pyRaise {α : Type} (e : PyExc) : EvM α := ([], Except.error e)

/-- Python whitespace stripped by `int()` (ASCII fragment). -/
def isPySpace (c : Char) : Bool :=
  c = ' ' || c = '\t' || c = '\n' || c = '\r' || c = '\x0b' || c = '\x0c'

/-- Digit run with single underscores allowed between digits, as accepted by
Python `int()`.  The caller guarantees the first character is a digit. -/
def pyDigitsVal (acc : Nat) : List Char → Option Nat
  | [] => some acc
  | c :: cs =>
      if c.isDigit then pyDigitsVal (10 * acc + (c.toNat - 48)) cs
      else if c = '_' then
        match cs with
        | [] => none
        | d :: _ => if d.isDigit then pyDigitsVal acc cs else none
      else none

/-- Python `int(s)` on a string: strip whitespace, optional sign, then a
nonempty digit run (underscores between digits allowed).  `none` models the
`ValueError` that `int()` raises. -/
def pyIntOfString (s : String) : Option Int :=
  let t := ((s.toList.dropWhile isPySpace).reverse.dropWhile isPySpace).reverse
  match t with
  | [] => none
  | c :: rest =>
      let core := if c = '-' || c = '+' then rest else c :: rest
      let sign : Int := if c = '-' then -1 else 1
      match core with
      | [] => none
      | d :: ds =>
          if d.isDigit then (pyDigitsVal (d.toNat - 48) ds).map (fun n => sign * (n : Int))
          else none

/-- Python `repr` of a string without special characters, as it appears in
the `int()` error message. -/
def pyRepr (s : String) : String := "\x27" ++ s ++ "\x27"

/-- Message of the `ValueError` raised by `int(s)` on a malformed string. -/
def invalidIntMsg (s : String) : String :=
  "invalid literal for int() with base 10: " ++ pyRepr s

/-- Python's ASCII `str.lower()`, character by character. -/
def pyLower (s : String) : String := String.mk (s.toList.map Char.toLower)

/-- One character list is an initial segment of another. -/
def isPrefixChars : List Char → List Char → Bool
  | [], _ => true
  | _ :: _, [] => false
  | c :: cs, d :: ds => c = d && isPrefixChars cs ds

/-- Whether `pat` occurs as a contiguous run inside `s`. -/
def containsSub (s pat : List Char) : Bool :=
  isPrefixChars pat s ||
    match s with
    | [] => false
    | _ :: rest => containsSub rest pat

/-- Whether `v` occurs as a substring of `msg` (used to express that an error message
names an environment variable). -/
def msgMentions (msg v : String) : Bool := containsSub msg.toList v.toList

/-- The message of a raised exception, `none` on normal return. -/
def errMsgOf {α : Type} : Except PyExc α → Option String
  | Except.error e => some (excMsg e)
  | Except.ok _ => none

/-! ## The script's functions (run.py lines 23-177) -/

def DEFAULT_DELAY_SECONDS : Int := 5

/-- Embedding of `create_client` (run.py lines 26-39). -/
def create_client (host : String) (port : Int) (secure : Bool := false) :
    EvM Client := do
  let protocol : String := if secure then "https" else "http"
  if ¬ (1 ≤ port ∧ port ≤ 65535) then
    pyRaise (PyExc.valueError
      ("Port number " ++ toString port ++ " is out of valid range (1-65535)."))
  if host = "" then
    pyRaise (PyExc.valueError "Host must be specified and cannot be empty.")
  let base_url := protocol ++ "://" ++ host ++ ":" ++ toString port
  pyPrint ("Creating LlamaStack client with base URL: " ++ base_url)
  emit (Event.createClient base_url)
  pure { base_url := base_url }

/-- Embedding of `get_embedding_model` (run.py lines 42-58).  The remote `models.list()`
call is recorded as an event; the listing it returns is the `models`
parameter.  The `for` loop returning the first matching model is `find?`. -/
def get_embedding_model (models : List Model)
    (embedding_model_id embedding_model_provider : String) : EvM Model := do
  if embedding_model_id = "" then
    pyRaise (PyExc.valueError "Embedding model ID is required")
  if embedding_model_provider = "" then
    pyRaise (PyExc.valueError "Embedding model provider is required")
  emit Event.listModels
  match models.find? (fun m =>
      m.identifier = embedding_model_id &&
      m.provider_id = embedding_model_provider &&
      m.api_model_type = "embedding") with
  | some model => pure model
  | none => pyRaise (PyExc.valueError
      ("Embedding model " ++ embedding_model_id ++ " not found for provider "
        ++ embedding_model_provider))

/-- Embedding of `register_vector_db` (run.py lines 61-102).  A `Model` instance is always
truthy in Python, so the `if not embedding_model` branch at line 73 never
fires and is not represented.  The duplicated `isinstance(metadata, dict)`
check of lines 85-88 collapses to one test with the same outcome. -/
def register_vector_db (embedding_model : Model)
    (vector_db_id : String := "milvus_db") (provider_id : String := "milvus") :
    EvM String := do
  if vector_db_id = "" then
    pyRaise (PyExc.valueError "Vector DB ID is required for registration")
  if provider_id = "" then
    pyRaise (PyExc.valueError "Provider ID is required for vector DB registration")
  let embedding_model_id := embedding_model.identifier
  if embedding_model_id = "" then
    pyRaise (PyExc.valueError "Embedding model ID is required for vector DB registration")
  if embedding_model.api_model_type ≠ "embedding" then
    pyRaise (PyExc.valueError "Provided model is not an embedding model")
  if ¬ embedding_model.metadata.isDict then
    pyRaise (PyExc.valueError "Embedding model metadata must be a dictionary")
  if ¬ isStrIntFloat (mGet embedding_model.metadata "embedding_dimension") then
    pyRaise (PyExc.valueError
      "Embedding model metadata \x27embedding_dimension\x27 must be a str, int or float")
  let embedding_dimension := mGet embedding_model.metadata "embedding_dimension"
  let dimStr := pyStr embedding_dimension
  pyPrint ("Registering vector DB: " ++ vector_db_id ++ " with embedding model "
    ++ embedding_model_id ++ " (dimension: " ++ dimStr ++ ")")
  emit (Event.registerDb vector_db_id embedding_model_id provider_id)
  pyPrint ("Registered vector DB: " ++ vector_db_id)
  pure vector_db_id

/-- Embedding of `get_mime_type` (run.py lines 105-115). -/
def get_mime_type (extension : String) : String :=
  let mime_types : List (String × String) :=
    [(".txt", "text/plain"), (".md", "text/markdown"), (".py", "text/plain"),
     (".json", "application/json"), (".html", "text/html"), (".csv", "text/csv")]
  (mime_types.lookup (pyLower extension)).getD "text/plain"

/-- Index of the last occurrence of `c` in `cs`, if any. -/
def lastIdxOf (c : Char) (cs : List Char) : Option Nat :=
  match (cs.reverse).findIdx? (fun x => x = c) with
  | some j => some (cs.length - 1 - j)
  | none => none

/-- Python `pathlib.PurePath(name).suffix`: the part from the last dot, empty when
the last dot is the first or last character. -/
def pathSuffix (name : String) : String :=
  let cs := name.toList
  match lastIdxOf '.' cs with
  | some i => if 0 < i ∧ i < cs.length - 1 then String.mk (cs.drop i) else ""
  | none => ""

/-- Python `pathlib.PurePath(name).stem`: the name with its suffix removed. -/
def pathStem (name : String) : String :=
  let cs := name.toList
  match lastIdxOf '.' cs with
  | some i => if 0 < i ∧ i < cs.length - 1 then String.mk (cs.take i) else name
  | none => name

/-- One directory entry as `iterdir()` yields it.  `pathStr` is `str(path)`
as pathlib renders it.  `data` is the joint outcome of `open`/`read`/`stat`:
content and size on success, the exception message when any of them raises
(all three sit inside the same `try`). -/
structure FileEntry where
  name : String
  pathStr : String
  isFile : Bool
  data : Except String (String × Nat)
deriving Repr

/-- The filesystem state at a folder path. -/
inductive Folder where
  | missing
  | present (entries : List FileEntry)
deriving Repr

/-- The `for file_path in folder.iterdir()` loop body of
`load_documents_from_folder` (run.py lines 132-154). -/
def loadLoop (file_extensions : List String) : List FileEntry → EvM (List RAGDocument)
  | [] => pure []
  | e :: rest =>
      if e.isFile ∧ pyLower (pathSuffix e.name) ∈ file_extensions then
        match e.data with
        | Except.ok cs => do
            let mime_type := get_mime_type (pathSuffix e.name)
            let doc : RAGDocument :=
              { document_id := pathStem e.name
                content := cs.1
                mime_type := mime_type
                metadata := [("filename", PyVal.vStr e.name),
                             ("filepath", PyVal.vStr e.pathStr),
                             ("file_size", PyVal.vInt (cs.2 : Int))] }
            pyPrint ("Loaded: " ++ e.name)
            let ds ← loadLoop file_extensions rest
            pure (doc :: ds)
        | Except.error msg => do
            pyPrint ("Error reading " ++ e.pathStr ++ ": " ++ msg)
            loadLoop file_extensions rest
      else
        loadLoop file_extensions rest

/-- Embedding of `load_documents_from_folder` (run.py lines 118-157).  `folder` is the
filesystem state at `folder_path`; `folder.exists()` is recorded as an
`fsCheck` event. -/
def load_documents_from_folder (folder_path : String) (folder : Folder)
    (file_extensions : List String := [".txt", ".md"]) : EvM (List RAGDocument) := do
  emit (Event.fsCheck folder_path)
  match folder with
  | Folder.missing => do
      pyPrint ("Warning: Folder " ++ folder_path ++ " does not exist")
      pure []
  | Folder.present entries => do
      pyPrint ("Loading documents from: " ++ folder_path)
      let documents ← loadLoop file_extensions entries
      let n := documents.length
      pyPrint ("Successfully loaded " ++ toString n ++ " documents")
      pure documents

/-- Embedding of `insert_documents` (run.py lines 160-177).  The early `return` on an
empty list is the `then` branch. -/
def insert_documents (documents : List RAGDocument) (vector_db_id : String)
    (chunk_size_in_tokens : Int := 512) : EvM Unit :=
  if documents.isEmpty then
    pyPrint "No documents to insert"
  else do
    emit (Event.insertCall documents vector_db_id chunk_size_in_tokens)
    let n := documents.length
    pyPrint ("Inserted " ++ toString n ++ " documents into vector DB")

/-! ## `main` (run.py lines 179-257) -/

/-- The delay-parsing block (run.py lines 188-194): `int(args.delay)`, then a
rejection of negatives; both failure modes land in the same `except` clause,
which warns and falls back to `DEFAULT_DELAY_SECONDS`.  Yields the warning
print (if any) and the resulting `delay_seconds`. -/
def parseDelay (args_delay : String) : List Event × Int :=
  match pyIntOfString args_delay with
  | none =>
      ([Event.print ("Warning: Invalid delay value " ++ pyRepr args_delay
          ++ ", defaulting to 0 seconds. Error: " ++ invalidIntMsg args_delay)],
        DEFAULT_DELAY_SECONDS)
  | some n =>
      if n < 0 then
        ([Event.print ("Warning: Invalid delay value " ++ pyRepr args_delay
            ++ ", defaulting to 0 seconds. Error: Delay must be a positive integer")],
          DEFAULT_DELAY_SECONDS)
      else ([], n)

/-- Environments: a partial map from variable names to values. -/
def Env : Type := String → Option String

/-- The body of `main`'s `try` block (run.py lines 198-251).  `env` is the
process environment, `models` the listing the remote `models.list()` call
returns, `fs` the filesystem state per folder path.  A `None` result of
`os.environ.get` for `LLAMA_STACK_HOST` / `LLAMA_STACK_PORT` is rendered as
the empty string: both are falsy and the value is only used when nonempty.
The `if not embedding_model` re-check at line 240 never fires (a `Model`
instance is always truthy) and is not represented. -/
def mainTry (env : Env) (models : List Model) (fs : String → Folder) :
    EvM Unit := do
  let embedding_model_id ← match env "EMBEDDING_MODEL" with
    | none => pyRaise (PyExc.valueError "EMBEDDING_MODEL environment variable must be set")
    | some v => pure v
  match env "EMBEDDING_DIMENSION" with
    | none => pyRaise (PyExc.valueError "EMBEDDING_DIMENSION environment variable must be set")
    | some _ => pure ()
  let embedding_model_provider ← match env "EMBEDDING_MODEL_PROVIDER" with
    | none => pyRaise (PyExc.valueError "EMBEDDING_MODEL_PROVIDER environment variable must be set")
    | some v => pure v
  let chunk_str := (env "CHUNK_SIZE_IN_TOKENS").getD "512"
  let chunk_size_in_tokens ← match pyIntOfString chunk_str with
    | none => pyRaise (PyExc.valueError (invalidIntMsg chunk_str))
    | some n => pure n
  let host := (env "LLAMA_STACK_HOST").getD ""
  if host = "" then
    pyRaise (PyExc.valueError "LLAMA_STACK_HOST environment variable must be set")
  let port := (env "LLAMA_STACK_PORT").getD ""
  if port = "" then
    pyRaise (PyExc.valueError "LLAMA_STACK_PORT environment variable must be set")
  let secure := ["true", "1", "yes"].contains (pyLower ((env "LLAMA_STACK_SECURE").getD "false"))
  let secure_str := if secure then "True" else "False"
  pyPrint "DEBUG - Environment variables:"
  pyPrint ("  HOST: \x27" ++ host ++ "\x27")
  pyPrint ("  PORT: \x27" ++ port ++ "\x27 (type: <class \x27str\x27>)")
  pyPrint ("  SECURE: \x27" ++ secure_str ++ "\x27")
  let docs_folder := (env "DOCS_FOLDER").getD "./docs"
  if docs_folder = "" then
    pyRaise (PyExc.valueError "DOCS_FOLDER environment variable must be set")
  let port_int ← match pyIntOfString port with
    | none => pyRaise (PyExc.valueError (invalidIntMsg port))
    | some n => pure n
  let _client ← create_client host port_int secure
  pyPrint ("Connected to LlamaStack at " ++ host ++ ":" ++ port)
  let embedding_model ← get_embedding_model models embedding_model_id embedding_model_provider
  let dim ← match pySub embedding_model.metadata "embedding_dimension" with
    | Except.error e => pyRaise e
    | Except.ok v => pure v
  pyPrint ("Using embedding model: " ++ embedding_model.identifier
    ++ " (dimension: " ++ pyStr dim ++ ")")
  let vector_db_id ← register_vector_db embedding_model
  let documents ← load_documents_from_folder docs_folder (fs docs_folder)
  insert_documents documents vector_db_id 512
  pyPrint ("Documents inserted into the vector database " ++ vector_db_id
    ++ " with chunk size in tokens " ++ toString chunk_size_in_tokens)

/-- The top-level `try/except` of `main` (run.py lines 252-257): print the
error, sleep `delay_seconds` when positive, re-raise the same exception. -/
def mainWrap (delay_seconds : Int) (body : EvM Unit) : EvM Unit :=
  match body with
  | (t, Except.ok u) => (t, Except.ok u)
  | (t, Except.error e) =>
      (t ++ [Event.print ("Error: " ++ excMsg e)]
         ++ (if delay_seconds > 0 then
              [Event.print ("Delaying for " ++ toString delay_seconds
                 ++ " seconds before raising error"),
               Event.sleepFor delay_seconds]
            else []),
        Except.error e)

/-- Embedding of `main` (run.py lines 179-257).  `delay_arg` is the `--delay` CLI value
when given; argparse supplies the string `"0"` otherwise. -/
def main (delay_arg : Option String) (env : Env) (models : List Model)
    (fs : String → Folder) : EvM Unit :=
  let args_delay := delay_arg.getD "0"
  let (t0, delay_seconds) := parseDelay args_delay
  let pre := Event.print ("Delaying for " ++ toString delay_seconds
    ++ " seconds if task fails")
  let (t1, r) := mainWrap delay_seconds (mainTry env models fs)
  (t0 ++ [pre] ++ t1, r)

/-! ## Observation helpers -/

/-- The coarse pipeline steps of `main` that leave an observable event. -/
inductive Step where
  | constructClient
  | resolveModel
  | registerVectorDb
  | scanFolder
  | insertDocuments
deriving Repr, DecidableEq

/-- Classify an event as one of the pipeline steps. -/
def stepOf : Event → Option Step
  | Event.createClient _ => some Step.constructClient
  | Event.listModels => some Step.resolveModel
  | Event.registerDb _ _ _ => some Step.registerVectorDb
  | Event.fsCheck _ => some Step.scanFolder
  | Event.insertCall _ _ _ => some Step.insertDocuments
  | _ => none

/-- Events that reach the remote service (client construction included). -/
def apiCallOf : Event → Bool
  | Event.createClient _ => true
  | Event.listModels => true
  | Event.registerDb _ _ _ => true
  | Event.insertCall _ _ _ => true
  | _ => false

/-- The chunk size of an insertion call, if the event is one. -/
def insertChunkOf : Event → Option Int
  | Event.insertCall _ _ c => some c
  | _ => none

/-- The argument triple of a registration call, if the event is one. -/
def registerArgsOf : Event → Option (String × String × String)
  | Event.registerDb v m p => some (v, m, p)
  | _ => none

/-- Point update of an environment. -/
def updEnv (env : Env) (k : String) (v : Option String) : Env :=
  fun x => if x = k then v else env x

/-- The first required environment variable whose check fails in `main`'s
reading order, `none` when either all checks pass or the
`CHUNK_SIZE_IN_TOKENS` integer conversion fails first (that conversion sits
between the provider check and the host check). -/
def firstMissingVar (env : Env) : Option String :=
  if env "EMBEDDING_MODEL" = none then some "EMBEDDING_MODEL"
  else if env "EMBEDDING_DIMENSION" = none then some "EMBEDDING_DIMENSION"
  else if env "EMBEDDING_MODEL_PROVIDER" = none then some "EMBEDDING_MODEL_PROVIDER"
  else if pyIntOfString ((env "CHUNK_SIZE_IN_TOKENS").getD "512") = none then none
  else if (env "LLAMA_STACK_HOST").getD "" = "" then some "LLAMA_STACK_HOST"
  else if (env "LLAMA_STACK_PORT").getD "" = "" then some "LLAMA_STACK_PORT"
  else none

/-- The message of a print event, if the event is one. -/
def printMsgOf : Event → Option String
  | Event.print s => some s
  | _ => none

/-- A trace that consists of print events only: no outbound call, no sleep,
no filesystem access. -/
def PrintsOnly (t : List Event) : Prop := ∀ ev ∈ t, ∃ s, ev = Event.print s

/-- The computation's trace contains no sleep event. -/
def NoSleep {α : Type} (x : EvM α) : Prop := ∀ n, Event.sleepFor n ∉ x.1

/-- What `load_documents_from_folder` builds from one directory entry: a
document for a regular file with an accepted (lower-cased) suffix that reads
successfully, nothing otherwise. -/
def entryDoc (file_extensions : List String) (e : FileEntry) : Option RAGDocument :=
  if e.isFile ∧ pyLower (pathSuffix e.name) ∈ file_extensions then
    match e.data with
    | Except.ok cs =>
        some { document_id := pathStem e.name
               content := cs.1
               mime_type := get_mime_type (pathSuffix e.name)
               metadata := [("filename", PyVal.vStr e.name),
                            ("filepath", PyVal.vStr e.pathStr),
                            ("file_size", PyVal.vInt (cs.2 : Int))] }
    | Except.error _ => none
  else none

/-- The document list a folder scan produces. -/
def loadResult (folder : Folder) (exts : List String) : List RAGDocument :=
  match folder with
  | Folder.missing => []
  | Folder.present es => es.filterMap (entryDoc exts)

/-! ## Concrete fixtures used by the closed theorems -/

/-- A fully-populated environment with `CHUNK_SIZE_IN_TOKENS` set to 1024. -/
def envC1 : Env := fun k =>
  if k = "EMBEDDING_MODEL" then some "granite-embedding-125m"
  else if k = "EMBEDDING_DIMENSION" then some "768"
  else if k = "EMBEDDING_MODEL_PROVIDER" then some "sentence-transformers"
  else if k = "CHUNK_SIZE_IN_TOKENS" then some "1024"
  else if k = "LLAMA_STACK_HOST" then some "localhost"
  else if k = "LLAMA_STACK_PORT" then some "8080"
  else none

/-- A well-formed embedding model matching `envC1`. -/
def modelC1 : Model :=
  { identifier := "granite-embedding-125m"
    provider_id := "sentence-transformers"
    api_model_type := "embedding"
    metadata := PyVal.vDict [("embedding_dimension", PyVal.vInt 768)] }

/-- A filesystem with one loadable text document under `./docs`. -/
def fsC1 : String → Folder := fun p =>
  if p = "./docs" then
    Folder.present [{ name := "eligibility.txt", pathStr := "docs/eligibility.txt",
                      isFile := true, data := Except.ok ("eligibility rules", 17) }]
  else Folder.missing

/-- Environment `envC1` with a malformed chunk size and the host removed. -/
def envC3 : Env :=
  updEnv (updEnv envC1 "CHUNK_SIZE_IN_TOKENS" (some "abc")) "LLAMA_STACK_HOST" none

/-- A model that is not an embedding model. -/
def modelC4bad : Model :=
  { identifier := "llama-3"
    provider_id := "meta"
    api_model_type := "llm"
    metadata := PyVal.vDict [] }

/-- Directory entries: a loadable `.txt`, a `.pdf` (extension not accepted),
and a `.txt` whose read fails. -/
def entriesC10 : List FileEntry :=
  [{ name := "a.txt", pathStr := "docs/a.txt", isFile := true,
     data := Except.ok ("hello", 5) },
   { name := "b.pdf", pathStr := "docs/b.pdf", isFile := true,
     data := Except.ok ("pdf-bytes", 9) },
   { name := "c.txt", pathStr := "docs/c.txt", isFile := true,
     data := Except.error "Permission denied" }]

/-- The single document the scan of `entriesC10` yields. -/
def docC10 : RAGDocument :=
  { document_id := "a"
    content := "hello"
    mime_type := "text/plain"
    metadata := [("filename", PyVal.vStr "a.txt"),
                 ("filepath", PyVal.vStr "docs/a.txt"),
                 ("file_size", PyVal.vInt 5)] }

/-! ## Basic computation lemmas for the `EvM` monad -/

theorem EvM.bind_eq {α β : Type} (x : EvM α) (f : α → EvM β) :
    x >>= f = EvM.bind x f := rfl

@[simp] theorem EvM.bind_ok {α β : Type} (t : List Event) (a : α) (f : α → EvM β) :
    EvM.bind (t, Except.ok a) f = (t ++ (f a).1, (f a).2) := rfl

@[simp] theorem EvM.bind_err {α β : Type} (t : List Event) (e : PyExc) (f : α → EvM β) :
    EvM.bind ((t, Except.error e) : EvM α) f = (t, Except.error e) := rfl

@[simp] theorem EvM.pure_eq {α : Type} (a : α) :
    (pure a : EvM α) = ([], Except.ok a) := rfl

theorem printsOnly_nil : PrintsOnly [] := by intro ev h; cases h

theorem printsOnly_cons {s : String} {t : List Event} (h : PrintsOnly t) :
    PrintsOnly (Event.print s :: t) := by
  intro ev hev
  rcases List.mem_cons.mp hev with h1 | h1
  · exact ⟨s, h1⟩
  · exact h ev h1

theorem printsOnly_append {t u : List Event} (ht : PrintsOnly t) (hu : PrintsOnly u) :
    PrintsOnly (t ++ u) := by
  intro ev hev
  rcases List.mem_append.mp hev with h1 | h1
  · exact ht ev h1
  · exact hu ev h1

theorem PrintsOnly.filterMap_stepOf {t : List Event} (h : PrintsOnly t) :
    t.filterMap stepOf = [] := by
  rw [List.filterMap_eq_nil_iff]
  intro ev hev
  obtain ⟨s, rfl⟩ := h ev hev
  rfl

theorem PrintsOnly.filter_apiCallOf {t : List Event} (h : PrintsOnly t) :
    t.filter apiCallOf = [] := by
  rw [List.filter_eq_nil_iff]
  intro ev hev
  obtain ⟨s, rfl⟩ := h ev hev
  simp [apiCallOf]

theorem PrintsOnly.no_sleep {t : List Event} (h : PrintsOnly t) (n : Int) :
    Event.sleepFor n ∉ t := by
  intro hmem
  obtain ⟨s, hs⟩ := h _ hmem
  cases hs

theorem printsOnly_parseDelay (s : String) : PrintsOnly (parseDelay s).1 := by
  unfold parseDelay
  cases pyIntOfString s with
  | none => exact printsOnly_cons printsOnly_nil
  | some n =>
      by_cases hn : n < 0 <;> simp [hn] <;> first
        | exact printsOnly_cons printsOnly_nil
        | exact printsOnly_nil

theorem EvM.bind_of_ok {α β : Type} {x : EvM α} {a : α} (h : x.2 = Except.ok a)
    (f : α → EvM β) : EvM.bind x f = (x.1 ++ (f a).1, (f a).2) := by
  obtain ⟨t, r⟩ := x
  cases r with
  | error e => simp at h
  | ok b => simp at h; subst h; rfl

theorem EvM.bind_of_err {α β : Type} {x : EvM α} {e : PyExc}
    (h : x.2 = Except.error e) (f : α → EvM β) : EvM.bind x f = (x.1, Except.error e) := by
  obtain ⟨t, r⟩ := x
  cases r with
  | error e2 => simp at h; subst h; rfl
  | ok b => simp at h

theorem EvM.bind_ok_inv {α β : Type} {x : EvM α} {f : α → EvM β} {u : β}
    (h : (EvM.bind x f).2 = Except.ok u) :
    ∃ a, x.2 = Except.ok a ∧ (f a).2 = Except.ok u := by
  obtain ⟨t, r⟩ := x
  cases r with
  | error e => simp [EvM.bind] at h
  | ok a => exact ⟨a, rfl, by simpa [EvM.bind] using h⟩

theorem mainWrap_snd (d : Int) (b : EvM Unit) : (mainWrap d b).2 = b.2 := by
  obtain ⟨t, r⟩ := b
  cases r <;> rfl

theorem mainWrap_of_ok {d : Int} {b : EvM Unit} {u : Unit} (h : b.2 = Except.ok u) :
    mainWrap d b = b := by
  obtain ⟨t, r⟩ := b
  cases r with
  | error e => simp at h
  | ok v => rfl

theorem mainWrap_of_err {d : Int} {b : EvM Unit} {e : PyExc}
    (h : b.2 = Except.error e) :
    mainWrap d b =
      (b.1 ++ [Event.print ("Error: " ++ excMsg e)]
         ++ (if d > 0 then
              [Event.print ("Delaying for " ++ toString d ++ " seconds before raising error"),
               Event.sleepFor d]
            else []),
       Except.error e) := by
  obtain ⟨t, r⟩ := b
  cases r with
  | error e2 =>
      replace h : (Except.error e2 : Except PyExc Unit) = Except.error e := h
      cases h
      rfl
  | ok v => simp at h

/-- Unfolding of `main` into its three pieces. -/
theorem main_decomp (d : Option String) (env : Env) (models : List Model)
    (fs : String → Folder) :
    main d env models fs =
      ((parseDelay (d.getD "0")).1
          ++ [Event.print ("Delaying for " ++ toString (parseDelay (d.getD "0")).2
                ++ " seconds if task fails")]
          ++ (mainWrap (parseDelay (d.getD "0")).2 (mainTry env models fs)).1,
        (mainWrap (parseDelay (d.getD "0")).2 (mainTry env models fs)).2) := rfl

/-! ## Per-function characterization lemmas -/

theorem create_client_of_ok {host : String} {port : Int} {secure : Bool} {c : Client}
    (h : (create_client host port secure).2 = Except.ok c) :
    (create_client host port secure).1 =
      [Event.print ("Creating LlamaStack client with base URL: " ++ c.base_url),
       Event.createClient c.base_url] ∧
    c.base_url = (if secure then "https" else "http") ++ "://" ++ host ++ ":" ++ toString port := by
  by_cases hp : 1 ≤ port ∧ port ≤ 65535
  · by_cases hh : host = ""
    · simp [create_client, hp, hh, EvM.bind_eq, EvM.bind, pyRaise, pyPrint, emit] at h
    · simp [create_client, hp, hh, EvM.bind_eq, EvM.bind, pyRaise, pyPrint, emit] at h ⊢
      subst h
      simp
  · simp [create_client, hp, EvM.bind_eq, EvM.bind, pyRaise] at h

theorem get_embedding_model_of_ok {models : List Model}
    {emid emp : String} {m : Model}
    (h : (get_embedding_model models emid emp).2 = Except.ok m) :
    (get_embedding_model models emid emp).1 = [Event.listModels] := by
  by_cases h1 : emid = ""
  · simp [get_embedding_model, h1, EvM.bind_eq, EvM.bind, pyRaise, emit] at h
  · by_cases h2 : emp = ""
    · simp [get_embedding_model, h1, h2, EvM.bind_eq, EvM.bind, pyRaise, emit] at h
    · cases hf : models.find? (fun m =>
          m.identifier = emid && m.provider_id = emp && m.api_model_type = "embedding") with
      | none =>
          simp [get_embedding_model, h1, h2, hf, EvM.bind_eq, EvM.bind, pyRaise, emit] at h
      | some m0 =>
          simp [get_embedding_model, h1, h2, hf, EvM.bind_eq, EvM.bind, pyRaise, emit]

theorem register_vector_db_of_ok {m : Model} {vid pid v : String}
    (h : (register_vector_db m vid pid).2 = Except.ok v) :
    v = vid ∧
    (register_vector_db m vid pid).1.filterMap stepOf = [Step.registerVectorDb] ∧
    (register_vector_db m vid pid).1.filterMap registerArgsOf = [(vid, m.identifier, pid)] := by
  by_cases h1 : vid = "" <;> by_cases h2 : pid = "" <;>
    by_cases h3 : m.identifier = "" <;>
    by_cases h4 : m.api_model_type = "embedding" <;>
    by_cases h5 : m.metadata.isDict = true <;>
    by_cases h6 : isStrIntFloat (mGet m.metadata "embedding_dimension") = true <;>
  simp_all [register_vector_db, EvM.bind_eq, EvM.bind, pyRaise, pyPrint, emit,
    stepOf, registerArgsOf]

theorem loadLoop_spec (exts : List String) (es : List FileEntry) :
    (loadLoop exts es).2 = Except.ok (es.filterMap (entryDoc exts)) ∧
    PrintsOnly (loadLoop exts es).1 := by
  induction es with
  | nil => exact ⟨rfl, printsOnly_nil⟩
  | cons e rest ih =>
      obtain ⟨ih1, ih2⟩ := ih
      rcases hLL : loadLoop exts rest with ⟨t2, r2⟩
      rw [hLL] at ih1 ih2
      replace ih1 : r2 = Except.ok (rest.filterMap (entryDoc exts)) := ih1
      replace ih2 : PrintsOnly t2 := ih2
      subst ih1
      by_cases hc : e.isFile ∧ pyLower (pathSuffix e.name) ∈ exts
      · cases hd : e.data with
        | ok cs =>
            constructor
            · simp [loadLoop, hc, hd, hLL, entryDoc, EvM.bind_eq, EvM.bind, pyPrint, emit]
            · simp [loadLoop, hc, hd, hLL, EvM.bind_eq, EvM.bind, pyPrint, emit]
              exact printsOnly_cons ih2
        | error msg =>
            constructor
            · simp [loadLoop, hc, hd, hLL, entryDoc, EvM.bind_eq, EvM.bind, pyPrint, emit]
            · simp [loadLoop, hc, hd, hLL, EvM.bind_eq, EvM.bind, pyPrint, emit]
              exact printsOnly_cons ih2
      · constructor
        · simp [loadLoop, hc, hLL, entryDoc]
        · simp [loadLoop, hc, hLL]
          exact ih2

theorem load_documents_spec (folder_path : String) (folder : Folder) (exts : List String) :
    (load_documents_from_folder folder_path folder exts).2 =
      Except.ok (loadResult folder exts) ∧
    (load_documents_from_folder folder_path folder exts).1.filterMap stepOf =
      [Step.scanFolder] ∧
    (load_documents_from_folder folder_path folder exts).1.filter apiCallOf = [] ∧
    ∀ n, Event.sleepFor n ∉ (load_documents_from_folder folder_path folder exts).1 := by
  cases folder with
  | missing =>
      refine ⟨rfl, rfl, rfl, ?_⟩
      intro n
      simp [load_documents_from_folder, EvM.bind_eq, EvM.bind, pyPrint, emit]
  | present es =>
      obtain ⟨h1, h2⟩ := loadLoop_spec exts es
      rcases hLL : loadLoop exts es with ⟨t2, r2⟩
      rw [hLL] at h1 h2
      replace h1 : r2 = Except.ok (es.filterMap (entryDoc exts)) := h1
      replace h2 : PrintsOnly t2 := h2
      subst h1
      refine ⟨?_, ?_, ?_, ?_⟩
      · simp [load_documents_from_folder, hLL, EvM.bind_eq, EvM.bind, pyPrint, emit,
          loadResult]
      · simp [load_documents_from_folder, hLL, EvM.bind_eq, EvM.bind, pyPrint, emit,
          stepOf, h2.filterMap_stepOf]
      · simp [load_documents_from_folder, hLL, EvM.bind_eq, EvM.bind, pyPrint, emit,
          apiCallOf, h2.filter_apiCallOf]
      · intro n
        simp [load_documents_from_folder, hLL, EvM.bind_eq, EvM.bind, pyPrint, emit]
        exact h2.no_sleep n

theorem insert_documents_spec (documents : List RAGDocument) (vid : String) (chunk : Int) :
    (insert_documents documents vid chunk).2 = Except.ok () ∧
    ((insert_documents documents vid chunk).1.filterMap stepOf =
      if documents.isEmpty then [] else [Step.insertDocuments]) ∧
    ((insert_documents documents vid chunk).1.filterMap insertChunkOf =
      if documents.isEmpty then [] else [chunk]) ∧
    ∀ n, Event.sleepFor n ∉ (insert_documents documents vid chunk).1 := by
  cases documents with
  | nil =>
      refine ⟨rfl, rfl, rfl, ?_⟩
      intro n
      simp [insert_documents, pyPrint, emit]
  | cons d ds =>
      refine ⟨?_, ?_, ?_, ?_⟩ <;>
        simp [insert_documents, EvM.bind_eq, EvM.bind, pyPrint, emit, stepOf, insertChunkOf]

/-! ## No run of the script sleeps outside the top-level handler -/

theorem noSleep_bind {α β : Type} {x : EvM α} {f : α → EvM β}
    (hx : NoSleep x) (hf : ∀ a, NoSleep (f a)) : NoSleep (EvM.bind x f) := by
  obtain ⟨t, r⟩ := x
  cases r with
  | error e => exact hx
  | ok a =>
      intro n hn
      rcases List.mem_append.mp hn with h1 | h1
      · exact hx n h1
      · exact hf a n h1

theorem noSleep_pure {α : Type} (a : α) : NoSleep (pure a : EvM α) := by
  intro n hn
  simp at hn

theorem noSleep_raise {α : Type} (e : PyExc) : NoSleep (pyRaise e : EvM α) := by
  intro n hn
  simp [pyRaise] at hn

theorem noSleep_print (s : String) : NoSleep (pyPrint s) := by
  intro n hn
  simp [pyPrint, emit] at hn

theorem noSleep_create_client (host : String) (port : Int) (secure : Bool) :
    NoSleep (create_client host port secure) := by
  by_cases hp : 1 ≤ port ∧ port ≤ 65535 <;> by_cases hh : host = "" <;>
    intro n hn <;>
    simp [create_client, hp, hh, EvM.bind_eq, EvM.bind, pyRaise, pyPrint, emit] at hn

theorem noSleep_get_embedding_model (models : List Model) (emid emp : String) :
    NoSleep (get_embedding_model models emid emp) := by
  by_cases h1 : emid = "" <;> by_cases h2 : emp = "" <;>
    cases hf : models.find? (fun m =>
      m.identifier = emid && m.provider_id = emp && m.api_model_type = "embedding") <;>
    intro n hn <;>
    simp [get_embedding_model, h1, h2, hf, EvM.bind_eq, EvM.bind, pyRaise, emit] at hn

theorem noSleep_register_vector_db (m : Model) (vid pid : String) :
    NoSleep (register_vector_db m vid pid) := by
  by_cases h1 : vid = "" <;> by_cases h2 : pid = "" <;>
    by_cases h3 : m.identifier = "" <;>
    by_cases h4 : m.api_model_type = "embedding" <;>
    by_cases h5 : m.metadata.isDict = true <;>
    by_cases h6 : isStrIntFloat (mGet m.metadata "embedding_dimension") = true <;>
    intro n hn <;>
    simp_all [register_vector_db, EvM.bind_eq, EvM.bind, pyRaise, pyPrint, emit]

theorem noSleep_load_documents (folder_path : String) (folder : Folder)
    (exts : List String) :
    NoSleep (load_documents_from_folder folder_path folder exts) :=
  (load_documents_spec folder_path folder exts).2.2.2

theorem noSleep_insert_documents (documents : List RAGDocument) (vid : String)
    (chunk : Int) : NoSleep (insert_documents documents vid chunk) :=
  (insert_documents_spec documents vid chunk).2.2.2

theorem noSleep_raise_bind {α β : Type} {e : PyExc} {f : α → EvM β} :
    NoSleep (EvM.bind (pyRaise e) f) := by
  intro n hn
  simp [EvM.bind, pyRaise] at hn

theorem noSleep_pure_bind {α β : Type} {a : α} {f : α → EvM β}
    (hf : NoSleep (f a)) : NoSleep (EvM.bind (pure a) f) := by
  intro n hn
  simp [EvM.bind] at hn
  exact hf n hn

theorem mainTry_no_sleep (env : Env) (models : List Model) (fs : String → Folder) :
    NoSleep (mainTry env models fs) := by
  unfold mainTry
  simp only [EvM.bind_eq]
  cases env "EMBEDDING_MODEL" with
  | none => exact noSleep_raise_bind
  | some em =>
  refine noSleep_pure_bind ?_
  cases env "EMBEDDING_DIMENSION" with
  | none => exact noSleep_raise_bind
  | some ed =>
  refine noSleep_pure_bind ?_
  cases env "EMBEDDING_MODEL_PROVIDER" with
  | none => exact noSleep_raise_bind
  | some ep =>
  refine noSleep_pure_bind ?_
  cases pyIntOfString ((env "CHUNK_SIZE_IN_TOKENS").getD "512") with
  | none => exact noSleep_raise_bind
  | some chunk =>
  refine noSleep_pure_bind ?_
  split
  · exact noSleep_raise_bind
  refine noSleep_pure_bind ?_
  split
  · exact noSleep_raise_bind
  refine noSleep_pure_bind ?_
  refine noSleep_bind (noSleep_print _) fun u4 => ?_
  refine noSleep_bind (noSleep_print _) fun u5 => ?_
  refine noSleep_bind (noSleep_print _) fun u6 => ?_
  refine noSleep_bind (noSleep_print _) fun u7 => ?_
  split
  · exact noSleep_raise_bind
  refine noSleep_pure_bind ?_
  cases pyIntOfString ((env "LLAMA_STACK_PORT").getD "") with
  | none => exact noSleep_raise_bind
  | some port_int =>
  refine noSleep_pure_bind ?_
  refine noSleep_bind (noSleep_create_client _ _ _) fun c => ?_
  refine noSleep_bind (noSleep_print _) fun u9 => ?_
  refine noSleep_bind (noSleep_get_embedding_model _ _ _) fun m => ?_
  cases pySub m.metadata "embedding_dimension" with
  | error e => exact noSleep_raise_bind
  | ok dim =>
  refine noSleep_pure_bind ?_
  refine noSleep_bind (noSleep_print _) fun u10 => ?_
  refine noSleep_bind (noSleep_register_vector_db _ _ _) fun vid => ?_
  refine noSleep_bind (noSleep_load_documents _ _ _) fun documents => ?_
  refine noSleep_bind (noSleep_insert_documents _ _ _) fun u11 => ?_
  exact noSleep_print _

/-! ## Success runs visit the pipeline steps in order (claim C7 support) -/

theorem EvM.bind_print {β : Type} (s : String) (k : Unit → EvM β) :
    EvM.bind (pyPrint s) k = (Event.print s :: (k ()).1, (k ()).2) := rfl

theorem EvM.bind_emit {β : Type} (ev : Event) (k : Unit → EvM β) :
    EvM.bind (emit ev) k = (ev :: (k ()).1, (k ()).2) := rfl

theorem EvM.bind_raise {α β : Type} (e : PyExc) (k : α → EvM β) :
    EvM.bind (pyRaise e) k = ([], Except.error e) := rfl

theorem EvM.bind_pure_l {α β : Type} (a : α) (k : α → EvM β) :
    EvM.bind (pure a) k = k a := rfl

/-- On a successful run the body of `main` performs exactly: client
construction, model resolution, vector-db registration, folder scan, and an
insertion exactly when the scan produced documents — in that order. -/
theorem mainTry_ok_steps {env : Env} {models : List Model} {fs : String → Folder}
    (h : (mainTry env models fs).2 = Except.ok ()) :
    (mainTry env models fs).1.filterMap stepOf =
      [Step.constructClient, Step.resolveModel, Step.registerVectorDb, Step.scanFolder]
        ++ (if (loadResult (fs ((env "DOCS_FOLDER").getD "./docs")) [".txt", ".md"]).isEmpty
            then [] else [Step.insertDocuments]) := by
  unfold mainTry at h ⊢
  simp only [EvM.bind_eq] at h ⊢
  cases hEM : env "EMBEDDING_MODEL" with
  | none => simp [hEM, EvM.bind_raise] at h
  | some em =>
  simp only [hEM, EvM.bind_pure_l] at h ⊢
  cases hED : env "EMBEDDING_DIMENSION" with
  | none => simp [hED, EvM.bind_raise] at h
  | some ed =>
  simp only [hED, EvM.bind_pure_l] at h ⊢
  cases hEP : env "EMBEDDING_MODEL_PROVIDER" with
  | none => simp [hEP, EvM.bind_raise] at h
  | some ep =>
  simp only [hEP, EvM.bind_pure_l] at h ⊢
  cases hCS : pyIntOfString ((env "CHUNK_SIZE_IN_TOKENS").getD "512") with
  | none => simp [hCS, EvM.bind_raise] at h
  | some chunk =>
  simp only [hCS, EvM.bind_pure_l] at h ⊢
  by_cases hH : (env "LLAMA_STACK_HOST").getD "" = ""
  · rw [if_pos hH] at h; simp [EvM.bind_raise] at h
  rw [if_neg hH] at h
  rw [if_neg hH]
  by_cases hP : (env "LLAMA_STACK_PORT").getD "" = ""
  · rw [if_pos hP] at h; simp [EvM.bind_raise] at h
  rw [if_neg hP] at h
  rw [if_neg hP]
  simp only [EvM.bind_print] at h ⊢
  by_cases hD : (env "DOCS_FOLDER").getD "./docs" = ""
  · rw [if_pos hD] at h; simp [EvM.bind_raise] at h
  rw [if_neg hD] at h
  rw [if_neg hD]
  cases hPI : pyIntOfString ((env "LLAMA_STACK_PORT").getD "") with
  | none => simp [hPI, EvM.bind_raise] at h
  | some port_int =>
  simp only [hPI, EvM.bind_pure_l] at h ⊢
  obtain ⟨c, hc1, h⟩ := EvM.bind_ok_inv h
  rw [EvM.bind_of_ok hc1]
  simp only [EvM.bind_print] at h ⊢
  obtain ⟨m, hm1, h⟩ := EvM.bind_ok_inv h
  rw [EvM.bind_of_ok hm1]
  cases hSub : pySub m.metadata "embedding_dimension" with
  | error e => simp [hSub, EvM.bind_raise] at h
  | ok dim =>
  simp only [hSub, EvM.bind_pure_l, EvM.bind_print] at h ⊢
  obtain ⟨vid, hv1, h⟩ := EvM.bind_ok_inv h
  rw [EvM.bind_of_ok hv1]
  obtain ⟨documents, hl1, h⟩ := EvM.bind_ok_inv h
  rw [EvM.bind_of_ok hl1]
  obtain ⟨u, hi1, h⟩ := EvM.bind_ok_inv h
  rw [EvM.bind_of_ok hi1]
  have hload := load_documents_spec ((env "DOCS_FOLDER").getD "./docs")
    (fs ((env "DOCS_FOLDER").getD "./docs")) [".txt", ".md"]
  have hdocs : documents = loadResult (fs ((env "DOCS_FOLDER").getD "./docs")) [".txt", ".md"] := by
    have hx := hload.1
    rw [hl1] at hx
    exact Except.ok.inj hx
  have hcc := create_client_of_ok hc1
  have hgm := get_embedding_model_of_ok hm1
  have hrv := register_vector_db_of_ok hv1
  subst hdocs
  have hins := insert_documents_spec
    (loadResult (fs ((env "DOCS_FOLDER").getD "./docs")) [".txt", ".md"]) vid 512
  simp only [List.filterMap_append, List.filterMap_cons, List.filterMap_nil, stepOf,
    hcc.1, hgm, hrv.2.1, hload.2.1, hins.2.1, pyPrint, emit, List.append_assoc,
    List.nil_append, List.append_nil, List.cons_append, List.singleton_append]

/-- When a required environment variable is the first configuration check to
fail, `main`'s body raises the `ValueError` naming it, with no outbound call
made. -/
theorem mainTry_config_error {env : Env} {models : List Model} {fs : String → Folder}
    {v : String} (h : firstMissingVar env = some v) :
    (mainTry env models fs).2 =
      Except.error (PyExc.valueError (v ++ " environment variable must be set")) ∧
    (mainTry env models fs).1.filter apiCallOf = [] := by
  unfold firstMissingVar at h
  unfold mainTry
  simp only [EvM.bind_eq]
  cases hEM : env "EMBEDDING_MODEL" with
  | none =>
      rw [hEM] at h
      simp at h
      subst h
      exact ⟨rfl, rfl⟩
  | some em =>
  rw [hEM] at h
  simp only [EvM.bind_pure_l]
  cases hED : env "EMBEDDING_DIMENSION" with
  | none =>
      rw [hED] at h
      simp at h
      subst h
      exact ⟨rfl, rfl⟩
  | some ed =>
  rw [hED] at h
  simp only [EvM.bind_pure_l]
  cases hEP : env "EMBEDDING_MODEL_PROVIDER" with
  | none =>
      rw [hEP] at h
      simp at h
      subst h
      exact ⟨rfl, rfl⟩
  | some ep =>
  rw [hEP] at h
  simp only [EvM.bind_pure_l]
  cases hCS : pyIntOfString ((env "CHUNK_SIZE_IN_TOKENS").getD "512") with
  | none =>
      rw [hCS] at h
      simp at h
  | some chunk =>
  rw [hCS] at h
  simp only [EvM.bind_pure_l]
  by_cases hH : (env "LLAMA_STACK_HOST").getD "" = ""
  · rw [if_pos hH]
    simp [hEM, hED, hEP, hCS, hH] at h
    subst h
    exact ⟨rfl, rfl⟩
  rw [if_neg hH]
  by_cases hP : (env "LLAMA_STACK_PORT").getD "" = ""
  · rw [if_pos hP]
    simp [hEM, hED, hEP, hCS, hH, hP] at h
    subst h
    exact ⟨rfl, rfl⟩
  rw [if_neg hP] at h ⊢
  simp [hEM, hED, hEP, hCS, hH, hP] at h

/-- The top-level handler adds no outbound call of its own. -/
theorem mainWrap_filter_api (dsec : Int) (b : EvM Unit)
    (hb : b.1.filter apiCallOf = []) :
    (mainWrap dsec b).1.filter apiCallOf = [] := by
  obtain ⟨t, r⟩ := b
  cases r with
  | ok u => exact hb
  | error e =>
      simp only [mainWrap, List.filter_append]
      rw [hb]
      have h1 : List.filter apiCallOf [Event.print ("Error: " ++ excMsg e)] = [] := rfl
      rw [h1]
      simp only [List.nil_append]
      split <;> rfl

theorem main_filter_api (d : Option String) (env : Env) (models : List Model)
    (fs : String → Folder)
    (hb : (mainTry env models fs).1.filter apiCallOf = []) :
    (main d env models fs).1.filter apiCallOf = [] := by
  rw [main_decomp]
  simp only [List.filter_append, (printsOnly_parseDelay _).filter_apiCallOf,
    mainWrap_filter_api _ _ hb, List.nil_append, List.append_nil]
  rfl

/-- On any model failing one of the three metadata/type checks,
`register_vector_db` stops at some `ValueError` with an empty trace. -/
theorem register_vector_db_err_shape (m : Model) (vid pid : String)
    (hbad : m.api_model_type ≠ "embedding" ∨ m.metadata.isDict = false ∨
      isStrIntFloat (mGet m.metadata "embedding_dimension") = false) :
    ∃ msg, register_vector_db m vid pid = ([], Except.error (PyExc.valueError msg)) := by
  unfold register_vector_db
  simp only [EvM.bind_eq]
  by_cases h1 : vid = ""
  · rw [if_pos h1]; exact ⟨_, rfl⟩
  rw [if_neg h1]
  by_cases h2 : pid = ""
  · rw [if_pos h2]; exact ⟨_, rfl⟩
  rw [if_neg h2]
  by_cases h3 : m.identifier = ""
  · rw [if_pos h3]; exact ⟨_, rfl⟩
  rw [if_neg h3]
  by_cases h4 : m.api_model_type ≠ "embedding"
  · rw [if_pos h4]; exact ⟨_, rfl⟩
  rw [if_neg h4]
  by_cases h5 : ¬ m.metadata.isDict
  · rw [if_pos h5]; exact ⟨_, rfl⟩
  rw [if_neg h5]
  by_cases h6 : ¬ isStrIntFloat (mGet m.metadata "embedding_dimension")
  · rw [if_pos h6]; exact ⟨_, rfl⟩
  exfalso
  rcases hbad with hb | hb | hb
  · exact h4 hb
  · exact h5 (by simp [hb])
  · exact h6 (by simp [hb])

/-! ## Claim theorems -/

/-- C1: the claim states that the chunk size passed to the insertion call
equals the integer value of `CHUNK_SIZE_IN_TOKENS` (512 when unset).  The
code instead hardcodes 512 at the call site (run.py line 249) even though it
reads and converts the variable, and the final status line it prints reports
the environment's value: with `CHUNK_SIZE_IN_TOKENS=1024` the run succeeds,
the insertion call carries 512, and the success message claims 1024,
contradicting both the claim and the code's own output. -/
theorem C1_insert_chunk_hardcoded_512 :
    envC1 "CHUNK_SIZE_IN_TOKENS" = some "1024" ∧
    pyIntOfString "1024" = some 1024 ∧
    (main (some "0") envC1 [modelC1] fsC1).2 = Except.ok () ∧
    (main (some "0") envC1 [modelC1] fsC1).1.filterMap insertChunkOf = [512] ∧
    ((main (some "0") envC1 [modelC1] fsC1).1.filterMap printMsgOf).contains
      "Documents inserted into the vector database milvus_db with chunk size in tokens 1024"
      = true :=
  ⟨by decide, by decide, rfl, by decide, by decide⟩

/-- C2: `create_client` raises a `ValueError` exactly when the port is
outside 1..65535 or the host is empty; the port-range check fires first
(its error is raised even when the host is also empty); otherwise the
returned client's base URL uses https exactly when `secure` is true. -/
theorem C2_create_client_validation (host : String) (port : Int) (secure : Bool) :
    ((create_client host port secure).2.isOk = false ↔
      (¬ (1 ≤ port ∧ port ≤ 65535) ∨ host = "")) ∧
    (¬ (1 ≤ port ∧ port ≤ 65535) →
      (create_client host port secure).2 = Except.error (PyExc.valueError
        ("Port number " ++ toString port ++ " is out of valid range (1-65535)."))) ∧
    ((1 ≤ port ∧ port ≤ 65535) → host = "" →
      (create_client host port secure).2 = Except.error (PyExc.valueError
        "Host must be specified and cannot be empty.")) ∧
    ((1 ≤ port ∧ port ≤ 65535) → host ≠ "" →
      (create_client host port secure).2 = Except.ok
        { base_url := (if secure then "https" else "http") ++ "://" ++ host ++ ":"
            ++ toString port }) := by
  by_cases hp : 1 ≤ port ∧ port ≤ 65535 <;> by_cases hh : host = "" <;>
    refine ⟨?_, ?_, ?_, ?_⟩ <;>
    simp [create_client, hp, hh, EvM.bind_eq, EvM.bind, pyRaise, pyPrint, emit,
      Except.isOk, Except.toBool]

theorem C2_create_client_validation_witness :
    (create_client "localhost" 8080 false).2 =
      Except.ok { base_url := "http://localhost:8080" } ∧
    (create_client "" 0 true).2 = Except.error
      (PyExc.valueError "Port number 0 is out of valid range (1-65535).") ∧
    (create_client "" 443 true).2 = Except.error
      (PyExc.valueError "Host must be specified and cannot be empty.") :=
  ⟨(C2_create_client_validation "localhost" 8080 false).2.2.2 (by decide) (by decide),
   (C2_create_client_validation "" 0 true).2.1 (by decide),
   (C2_create_client_validation "" 443 true).2.2.1 (by decide) rfl⟩

/-- C3 counterexample: in this environment `LLAMA_STACK_HOST` is unset — one
of the five variables the claim covers — yet `main` raises the `int()`
conversion error for the malformed `CHUNK_SIZE_IN_TOKENS`, which is checked
earlier; the raised `ValueError` does not name `LLAMA_STACK_HOST`, so the
claim as stated is false. -/
theorem C3_counterexample_chunk_error_first :
    envC3 "LLAMA_STACK_HOST" = none ∧
    (main (some "0") envC3 [modelC1] fsC1).2 =
      Except.error (PyExc.valueError "invalid literal for int() with base 10: \x27abc\x27") ∧
    msgMentions "invalid literal for int() with base 10: \x27abc\x27" "LLAMA_STACK_HOST"
      = false ∧
    ((main (some "0") envC3 [modelC1] fsC1).1.filter apiCallOf).length = 0 :=
  ⟨by decide, rfl, by decide, by decide⟩

/-- C3 (amended): when a required variable's check is the first to fail in
`main`'s reading order — in particular `CHUNK_SIZE_IN_TOKENS`, converted
between the provider check and the host check, must parse — `main` raises
the `ValueError` naming that variable, before any client construction or
outbound API call. -/
theorem C3_missing_env_raises_named_error (d : Option String) (env : Env)
    (models : List Model) (fs : String → Folder) (v : String)
    (h : firstMissingVar env = some v) :
    (main d env models fs).2 =
      Except.error (PyExc.valueError (v ++ " environment variable must be set")) ∧
    (main d env models fs).1.filter apiCallOf = [] ∧
    msgMentions (v ++ " environment variable must be set") v = true := by
  obtain ⟨h1, h2⟩ := @mainTry_config_error env models fs v h
  refine ⟨?_, main_filter_api d env models fs h2, ?_⟩
  · have h0 : (main d env models fs).2 = (mainTry env models fs).2 := by
      rw [main_decomp]
      exact mainWrap_snd _ _
    rw [h0, h1]
  · unfold firstMissingVar at h
    split at h
    · injection h with hv; subst hv; decide
    split at h
    · injection h with hv; subst hv; decide
    split at h
    · injection h with hv; subst hv; decide
    split at h
    · simp at h
    split at h
    · injection h with hv; subst hv; decide
    split at h
    · injection h with hv; subst hv; decide
    · simp at h

theorem C3_missing_env_raises_named_error_witness :
    firstMissingVar (fun _ => none) = some "EMBEDDING_MODEL" ∧
    (main none (fun _ => none) [] (fun _ => Folder.missing)).2 =
      Except.error (PyExc.valueError "EMBEDDING_MODEL environment variable must be set") :=
  ⟨rfl,
    (C3_missing_env_raises_named_error none (fun _ => none) [] (fun _ => Folder.missing)
      "EMBEDDING_MODEL" rfl).1⟩

/-- C4: `register_vector_db` raises a `ValueError` without reaching the
remote register endpoint whenever the model's api type is not "embedding",
its metadata is not a dictionary, or the metadata's "embedding_dimension" is
not a str/int/float (booleans count as ints in Python); for a well-formed
embedding model and non-empty identifiers it performs exactly one register
call with the given arguments and returns the given vector-db id. -/
theorem C4_register_vector_db_validation (m : Model) (vid pid : String) :
    ((m.api_model_type ≠ "embedding" ∨ m.metadata.isDict = false ∨
        isStrIntFloat (mGet m.metadata "embedding_dimension") = false) →
      (∃ msg, (register_vector_db m vid pid).2 = Except.error (PyExc.valueError msg)) ∧
      (register_vector_db m vid pid).1.filterMap registerArgsOf = []) ∧
    (m.api_model_type = "embedding" → m.metadata.isDict = true →
      isStrIntFloat (mGet m.metadata "embedding_dimension") = true →
      vid ≠ "" → pid ≠ "" → m.identifier ≠ "" →
      (register_vector_db m vid pid).2 = Except.ok vid ∧
      (register_vector_db m vid pid).1.filterMap registerArgsOf =
        [(vid, m.identifier, pid)]) := by
  constructor
  · intro hbad
    obtain ⟨msg, hmsg⟩ := register_vector_db_err_shape m vid pid hbad
    rw [hmsg]
    exact ⟨⟨msg, rfl⟩, rfl⟩
  · intro h4 h5 h6 h1 h2 h3
    unfold register_vector_db
    simp only [EvM.bind_eq]
    rw [if_neg h1, if_neg h2, if_neg h3, if_neg (by simp [h4]),
      if_neg (by simp [h5]), if_neg (by simp [h6])]
    exact ⟨rfl, rfl⟩

theorem C4_register_vector_db_validation_witness :
    (register_vector_db modelC1 "milvus_db" "milvus").2 = Except.ok "milvus_db" ∧
    (∃ msg, (register_vector_db modelC4bad "milvus_db" "milvus").2 =
      Except.error (PyExc.valueError msg)) ∧
    (register_vector_db modelC4bad "milvus_db" "milvus").1.filterMap registerArgsOf
      = [] :=
  ⟨((C4_register_vector_db_validation modelC1 "milvus_db" "milvus").2
      rfl rfl rfl (by decide) (by decide) (by decide)).1,
   ((C4_register_vector_db_validation modelC4bad "milvus_db" "milvus").1
      (Or.inl (by decide))).1,
   ((C4_register_vector_db_validation modelC4bad "milvus_db" "milvus").1
      (Or.inl (by decide))).2⟩

/-- C5: every exception raised inside the body of `main` propagates through
the single top-level handler: `main`'s outcome is exactly the body's (no
swallowing, no classification), the error message is printed, and a sleep
of the configured delay occurs exactly when that delay is positive (no
other sleep exists anywhere in the run). -/
theorem C5_top_level_error_handling (d : Option String) (env : Env)
    (models : List Model) (fs : String → Folder) (e : PyExc)
    (h : (mainTry env models fs).2 = Except.error e) :
    (main d env models fs).2 = (mainTry env models fs).2 ∧
    (main d env models fs).2 = Except.error e ∧
    Event.print ("Error: " ++ excMsg e) ∈ (main d env models fs).1 ∧
    (∀ n : Int, Event.sleepFor n ∈ (main d env models fs).1 ↔
      0 < (parseDelay (d.getD "0")).2 ∧ n = (parseDelay (d.getD "0")).2) := by
  have h0 : (main d env models fs).2 = (mainTry env models fs).2 := by
    rw [main_decomp]
    exact mainWrap_snd _ _
  have hns := mainTry_no_sleep env models fs
  have htr : (main d env models fs).1 =
      (parseDelay (d.getD "0")).1
        ++ [Event.print ("Delaying for " ++ toString (parseDelay (d.getD "0")).2
              ++ " seconds if task fails")]
        ++ ((mainTry env models fs).1 ++ [Event.print ("Error: " ++ excMsg e)]
            ++ (if (parseDelay (d.getD "0")).2 > 0 then
                  [Event.print ("Delaying for " ++ toString (parseDelay (d.getD "0")).2
                     ++ " seconds before raising error"),
                   Event.sleepFor (parseDelay (d.getD "0")).2]
                else [])) := by
    rw [main_decomp, mainWrap_of_err h]
  refine ⟨h0, by rw [h0, h], ?_, ?_⟩
  · rw [htr]
    simp
  · intro n
    rw [htr]
    by_cases hds : 0 < (parseDelay (d.getD "0")).2 <;>
      simp [hds, List.mem_append, (printsOnly_parseDelay (d.getD "0")).no_sleep n, hns n]

theorem C5_top_level_error_handling_witness :
    (main (some "2") (fun _ => none) [] (fun _ => Folder.missing)).2 =
      Except.error (PyExc.valueError "EMBEDDING_MODEL environment variable must be set") ∧
    Event.sleepFor 2 ∈ (main (some "2") (fun _ => none) [] (fun _ => Folder.missing)).1 :=
  ⟨(C5_top_level_error_handling (some "2") (fun _ => none) [] (fun _ => Folder.missing)
      (PyExc.valueError "EMBEDDING_MODEL environment variable must be set") rfl).2.1,
   ((C5_top_level_error_handling (some "2") (fun _ => none) [] (fun _ => Folder.missing)
      (PyExc.valueError "EMBEDDING_MODEL environment variable must be set") rfl).2.2.2
      2).mpr (by constructor <;> decide)⟩

/-- C6: the `--delay` flag defaults to the string "0" (delay 0) when not
given; a value that `int()` cannot parse falls back to
`DEFAULT_DELAY_SECONDS = 5`; any non-negative integer value is used as is. -/
theorem C6_delay_flag_behavior :
    (parseDelay ((none : Option String).getD "0")).2 = 0 ∧
    DEFAULT_DELAY_SECONDS = 5 ∧
    (∀ s : String, pyIntOfString s = none → (parseDelay s).2 = DEFAULT_DELAY_SECONDS) ∧
    (∀ (s : String) (n : Int), pyIntOfString s = some n → 0 ≤ n →
      (parseDelay s).2 = n) ∧
    (∀ (env : Env) (models : List Model) (fs : String → Folder),
      main none env models fs = main (some "0") env models fs) := by
  refine ⟨rfl, rfl, ?_, ?_, fun env models fs => rfl⟩
  · intro s hs
    simp [parseDelay, hs]
  · intro s n hs hn
    simp [parseDelay, hs, not_lt.mpr hn]

theorem C6_delay_flag_behavior_witness :
    pyIntOfString "abc" = none ∧
    (parseDelay "abc").2 = DEFAULT_DELAY_SECONDS ∧
    pyIntOfString "7" = some 7 ∧
    (parseDelay "7").2 = 7 :=
  ⟨rfl, C6_delay_flag_behavior.2.2.1 "abc" rfl, rfl,
   C6_delay_flag_behavior.2.2.2.1 "7" 7 rfl (by decide)⟩

/-- C7: every successful run performs its observable steps in the fixed
order client construction, model resolution, vector-db registration, folder
scan, and then — exactly when the scan produced documents — one insertion;
configuration reading precedes them all (it emits no outbound event) and
nothing occurs out of order. -/
theorem C7_pipeline_linear_order (d : Option String) (env : Env)
    (models : List Model) (fs : String → Folder)
    (h : (main d env models fs).2 = Except.ok ()) :
    (main d env models fs).1.filterMap stepOf =
      [Step.constructClient, Step.resolveModel, Step.registerVectorDb, Step.scanFolder]
        ++ (if (loadResult (fs ((env "DOCS_FOLDER").getD "./docs")) [".txt", ".md"]).isEmpty
            then [] else [Step.insertDocuments]) := by
  have hsnd : (mainTry env models fs).2 = Except.ok () := by
    have h0 : (main d env models fs).2 = (mainTry env models fs).2 := by
      rw [main_decomp]
      exact mainWrap_snd _ _
    rw [h0] at h
    exact h
  have hsteps := mainTry_ok_steps hsnd
  have hwrap := @mainWrap_of_ok (parseDelay (d.getD "0")).2 (mainTry env models fs) () hsnd
  rw [main_decomp]
  simp only [hwrap, List.filterMap_append, List.filterMap_cons, List.filterMap_nil,
    (printsOnly_parseDelay _).filterMap_stepOf, stepOf, hsteps, List.nil_append]

theorem C7_pipeline_linear_order_witness :
    (main (some "0") envC1 [modelC1] fsC1).2 = Except.ok () ∧
    (main (some "0") envC1 [modelC1] fsC1).1.filterMap stepOf =
      [Step.constructClient, Step.resolveModel, Step.registerVectorDb, Step.scanFolder,
       Step.insertDocuments] :=
  ⟨rfl, C7_pipeline_linear_order (some "0") envC1 [modelC1] fsC1 rfl⟩

/-- C8: two runs whose environments differ only in the (set) value of
`EMBEDDING_DIMENSION` are identical — same events in the same order and the
same outcome; the variable is checked for presence and its value never
used. -/
theorem C8_embedding_dimension_no_influence (d : Option String) (env : Env)
    (models : List Model) (fs : String → Folder) (d1 d2 : String) :
    main d (updEnv env "EMBEDDING_DIMENSION" (some d1)) models fs =
    main d (updEnv env "EMBEDDING_DIMENSION" (some d2)) models fs := rfl

/-- C9: inserting an empty document list only prints a notice and returns
normally (Python `None`); no insertion call reaches the remote service, so
its state is untouched. -/
theorem C9_insert_empty_list_no_call (vid : String) (chunk : Int) :
    insert_documents [] vid chunk =
      ([Event.print "No documents to insert"], Except.ok ()) ∧
    (insert_documents [] vid chunk).1.filter apiCallOf = [] :=
  ⟨rfl, rfl⟩

/-- C10: a nonexistent folder yields the empty list with only a warning and
no exception; an existing folder yields exactly the documents of its regular
files whose lower-cased suffix is in the extension list and whose read
succeeds (a failing read skips that file without aborting), each document
carrying the file's stem as its id and the file's content. -/
theorem C10_load_documents_filtering (folder_path : String)
    (entries : List FileEntry) (exts : List String) :
    (load_documents_from_folder folder_path Folder.missing exts =
      ([Event.fsCheck folder_path,
        Event.print ("Warning: Folder " ++ folder_path ++ " does not exist")],
       Except.ok [])) ∧
    ((load_documents_from_folder folder_path (Folder.present entries) exts).2 =
      Except.ok (entries.filterMap (entryDoc exts))) ∧
    (∀ doc ∈ entries.filterMap (entryDoc exts),
      ∃ e ∈ entries, e.isFile ∧ pyLower (pathSuffix e.name) ∈ exts ∧
        (∃ cs, e.data = Except.ok cs ∧ doc.content = cs.1) ∧
        doc.document_id = pathStem e.name) := by
  refine ⟨rfl, (load_documents_spec folder_path (Folder.present entries) exts).1, ?_⟩
  intro doc hdoc
  rw [List.mem_filterMap] at hdoc
  obtain ⟨e, he, hde⟩ := hdoc
  refine ⟨e, he, ?_⟩
  unfold entryDoc at hde
  by_cases hc : e.isFile ∧ pyLower (pathSuffix e.name) ∈ exts
  · rw [if_pos hc] at hde
    cases hd : e.data with
    | ok cs =>
        rw [hd] at hde
        have hdoc2 := Option.some.inj hde
        subst hdoc2
        exact ⟨hc.1, hc.2, ⟨cs, rfl, rfl⟩, rfl⟩
    | error msg =>
        rw [hd] at hde
        cases hde
  · rw [if_neg hc] at hde
    cases hde

theorem C10_load_documents_filtering_witness :
    docC10 ∈ entriesC10.filterMap (entryDoc [".txt", ".md"]) ∧
    (∃ e ∈ entriesC10, e.isFile ∧ pyLower (pathSuffix e.name) ∈ [".txt", ".md"] ∧
      (∃ cs, e.data = Except.ok cs ∧ docC10.content = cs.1) ∧
      docC10.document_id = pathStem e.name) :=
  ⟨List.mem_singleton.mpr rfl,
   (C10_load_documents_filtering "./docs" entriesC10 [".txt", ".md"]).2.2 docC10
     (List.mem_singleton.mpr rfl)⟩

end Run
